import Mathlib

/-!
Shallow embedding of the mobile bridge (`src/utils/mobileBridge.ts`) and the
touch-gesture recognizer (`src/utils/mobileTouch.ts`) of the claudecodeui
repository, together with theorems settling the specification claims.

Conventions of the embedding:
* JavaScript numbers that the code only compares and subtracts (coordinates
  in px, timestamps in ms) are modelled as `Int`.
* Possibly-absent ambient globals (`window`, `navigator`, capability objects)
  are modelled as `Option` fields / `Bool` capability flags; dereferencing an
  absent global is modelled as `Except.error` (a thrown `ReferenceError`).
* The single-threaded event loop is modelled by processing a list of events in
  order; the one scheduled operation (the long-press timeout) is modelled by a
  pending fire time that is delivered before the next event whose timestamp
  reaches it.
-/

/-! ## Small string utilities (model of `String.prototype.includes`) -/

/-- Char-list version of `startsWith`. -/
def charsStartWith : List Char → List Char → Bool
  | [], _ => true
  | _ :: _, [] => false
  | p :: ps, c :: cs => p == c && charsStartWith ps cs

/-- Char-list substring containment. -/
def charsContain : List Char → List Char → Bool
  | [], pat => pat.isEmpty
  | c :: rest, pat => charsStartWith pat (c :: rest) || charsContain rest pat

/-- Model of JavaScript `haystack.includes(needle)`. -/
def strIncludes (s sub : String) : Bool :=
  charsContain s.toList sub.toList

/-! ## Environment model for `mobileBridge.ts` -/

/-- The parts of the global `window` object read by `isMobileApp` /
`MobileBridge.postMessage`. -/
structure JsWindow where
  /-- truthiness of `window.__MOBILE_APP__` -/
  mobileAppFlag : Bool
  /-- result of `new URLSearchParams(window.location.search).get('mobile')` -/
  searchMobileParam : Option String
  /-- `typeof window.uni !== 'undefined' && window.uni.postMessage` is truthy -/
  uniHasPostMessage : Bool
  /-- `window.parent !== window` (embedded as a child frame) -/
  parentIsDistinct : Bool
  /-- truthiness of `window.ReactNativeWebView` -/
  reactNativeWebView : Bool
  deriving Repr, DecidableEq

/-- The part of the global `navigator` object read by the bridge. -/
structure JsNavigator where
  userAgent : String
  deriving Repr, DecidableEq

/-- The ambient environment: both globals may be absent (headless context). -/
structure JsEnv where
  window : Option JsWindow
  navigator : Option JsNavigator
  deriving Repr, DecidableEq

namespace MobileBridge

/-- Embedding of `isMobileApp` (mobileBridge.ts lines 7-29).  The first check
is guarded by `typeof window !== 'undefined'`, but the later reads of
`window.location` / `navigator.userAgent` are not: they throw a
`ReferenceError` when the corresponding global is absent, modelled by
`Except.error`. -/
def isMobileApp (env : JsEnv) : Except String Bool :=
  if (match env.window with
      | some w => w.mobileAppFlag
      | none => false) then
    Except.ok true
  else
    match env.window with
    | none => Except.error "ReferenceError: window is not defined"
    | some w =>
      if w.searchMobileParam = some "true" then
        Except.ok true
      else if w.uniHasPostMessage then
        Except.ok true
      else
        match env.navigator with
        | none => Except.error "ReferenceError: navigator is not defined"
        | some nav =>
          let ua := nav.userAgent.toLower
          Except.ok (strIncludes ua "claudecodeui" || strIncludes ua "uni-app")

/-- Platform verdict of `getPlatform`. -/
inductive Platform
  | ios
  | android
  | web
  deriving Repr, DecidableEq

/-- Embedding of `getPlatform` (mobileBridge.ts lines 32-41).  It reads
`navigator.userAgent` unconditionally. -/
def getPlatform (env : JsEnv) : Except String Platform :=
  match env.navigator with
  | none => Except.error "ReferenceError: navigator is not defined"
  | some nav =>
    let ua := nav.userAgent.toLower
    if strIncludes ua "iphone" || strIncludes ua "ipad" then Except.ok Platform.ios
    else if strIncludes ua "android" then Except.ok Platform.android
    else Except.ok Platform.web

/-! ## Outbound messages and transport selection -/

/-- The closed outbound enumeration `BridgeMessageType`. -/
inductive BridgeMessageType
  | SAVE_AUTH
  | LOGOUT
  | OPEN_EXTERNAL
  | COPY_TEXT
  | TOGGLE_FULLSCREEN
  | SHOW_TOAST
  | GET_DEVICE_INFO
  | TOKEN_EXPIRED
  deriving Repr, DecidableEq

/-- `BridgeMessage`: the structured outbound message.  The optional `data`
payload is modelled as its canonical JSON text. -/
structure BridgeMessage where
  msgType : BridgeMessageType
  data : Option String
  deriving Repr, DecidableEq

/-- Wire name of each outbound kind. -/
def typeName : BridgeMessageType → String
  | BridgeMessageType.SAVE_AUTH => "SAVE_AUTH"
  | BridgeMessageType.LOGOUT => "LOGOUT"
  | BridgeMessageType.OPEN_EXTERNAL => "OPEN_EXTERNAL"
  | BridgeMessageType.COPY_TEXT => "COPY_TEXT"
  | BridgeMessageType.TOGGLE_FULLSCREEN => "TOGGLE_FULLSCREEN"
  | BridgeMessageType.SHOW_TOAST => "SHOW_TOAST"
  | BridgeMessageType.GET_DEVICE_INFO => "GET_DEVICE_INFO"
  | BridgeMessageType.TOKEN_EXPIRED => "TOKEN_EXPIRED"

/-- Model of `JSON.stringify(message)`: `JSON.stringify` omits an `undefined`
`data` field and inlines a present one. -/
def jsonStringify (m : BridgeMessage) : String :=
  match m.data with
  | none => "\x7b\"type\":\"" ++ typeName m.msgType ++ "\"\x7d"
  | some d => "\x7b\"type\":\"" ++ typeName m.msgType ++ "\",\"data\":" ++ d ++ "\x7d"

/-- One observable transport invocation.  Mechanisms (a) `window.uni.postMessage`
and (b) `window.parent.postMessage` receive the structured object; mechanism
(c) `window.ReactNativeWebView.postMessage` receives only the serialized
string. -/
inductive Sent
  | uniApp (m : BridgeMessage)
  | parentFrame (m : BridgeMessage)
  | reactNative (payload : String)
  deriving Repr, DecidableEq

/-- Embedding of `MobileBridge.postMessage` (mobileBridge.ts lines 122-153):
the list of transport invocations it performs (always of length at most one).
`isMobile` is the cached `this.isMobile`; the capability flags of `w` are read
fresh on every call. -/
def postMessage (isMobile : Bool) (w : JsWindow) (m : BridgeMessage) : List Sent :=
  if !isMobile then
    []
  else if w.uniHasPostMessage then
    [Sent.uniApp m]
  else if w.parentIsDistinct then
    [Sent.parentFrame m]
  else if w.reactNativeWebView then
    [Sent.reactNative (jsonStringify m)]
  else
    []

/-! ## Inbound dispatch -/

/-- A registered subscriber: `id` is its JS object identity (the `Set` is keyed
by identity), `raises` says whether invoking it throws. -/
structure Handler where
  id : Nat
  raises : Bool
  deriving Repr, DecidableEq

/-- What `event.data` can look like for inbound dispatch: a nullish value or a
message-shaped object with an optional string `type` field. -/
inductive WirePayload
  | jsNull
  | obj (msgType : Option String)
  deriving Repr, DecidableEq

/-- The guard `if (!message || !message.type) return;`: a nullish payload or an
absent/empty `type` is rejected; ANY non-empty `type` string passes. -/
def payloadAccepted : WirePayload → Bool
  | WirePayload.jsNull => false
  | WirePayload.obj none => false
  | WirePayload.obj (some t) => !(t == "")

/-- Result of invoking one subscriber. -/
inductive HResult
  | ok
  | raised
  deriving Repr, DecidableEq

/-- Invoking a handler either succeeds or throws. -/
def invoke (h : Handler) : HResult :=
  if h.raises then HResult.raised else HResult.ok

/-- The `forEach` dispatch loop: each invocation sits in a `try`/`catch`, so a
raised result is logged and iteration continues to the next handler. -/
def dispatchLoop : List Handler → List (Nat × HResult)
  | [] => []
  | h :: rest => (h.id, invoke h) :: dispatchLoop rest

/-- Embedding of `MobileBridge.handleNativeMessage` (mobileBridge.ts lines
100-114): the ordered list of (handler identity, invocation result) pairs. -/
def handleNativeMessage (handlers : List Handler) (p : WirePayload) :
    List (Nat × HResult) :=
  if payloadAccepted p then dispatchLoop handlers else []

/-- `messageHandlers.add` (JS `Set`): no duplicate identities, insertion order. -/
def subscribe (hs : List Handler) (h : Handler) : List Handler :=
  if hs.any (fun x => x.id == h.id) then hs else hs ++ [h]

/-- The unsubscribe capability returned by `onMessage`:
`messageHandlers.delete(handler)`. -/
def unsubscribe (hs : List Handler) (i : Nat) : List Handler :=
  hs.filter (fun x => !(x.id == i))

end MobileBridge

/-! ## Gesture recognizer (`setupTouchGestures` in mobileTouch.ts) -/

namespace MobileTouch

/-- Which of the three optional gesture handlers are configured. -/
structure Handlers where
  onLongPress : Bool
  onDoubleTap : Bool
  onSwipe : Bool
  deriving Repr, DecidableEq

/-- Swipe direction. -/
inductive Dir
  | left
  | right
  | up
  | down
  deriving Repr, DecidableEq

/-- An emitted gesture callback. -/
inductive Gesture
  | longPress (x y : Int)
  | doubleTap
  | swipe (d : Dir)
  deriving Repr, DecidableEq

/-- The closure state of one `setupTouchGestures` binding.  `pendingFire` is
the scheduled fire time of the armed `setTimeout` (cleared by `clearTimeout`
or consumed by firing); `timerNonNull` is the JS variable `longPressTimer`
itself, which stays non-null after the timeout FIRES (the callback never nulls
it) and is only nulled by the move/end handlers. -/
structure TState where
  touchStartX : Int
  touchStartY : Int
  lastTapTime : Int
  pendingFire : Option Int
  timerNonNull : Bool
  deriving Repr, DecidableEq

/-- State at binding time: `touchStartX = 0, touchStartY = 0, lastTapTime = 0,
longPressTimer = null`. -/
def initState : TState :=
  { touchStartX := 0, touchStartY := 0, lastTapTime := 0,
    pendingFire := none, timerNonNull := false }

/-- `handleTouchStart` (mobileTouch.ts lines 134-144): record start
coordinates; if a long-press handler is configured, arm a 500 ms timer. -/
def handleTouchStart (h : Handlers) (s : TState) (x y t : Int) : TState :=
  let s1 := { s with touchStartX := x, touchStartY := y }
  if h.onLongPress then
    { s1 with pendingFire := some (t + 500), timerNonNull := true }
  else
    s1

/-- `handleTouchMove` (mobileTouch.ts lines 146-157): if displacement from the
start exceeds 10 px in either axis and `longPressTimer` is non-null, clear it.
Start coordinates are NOT updated. -/
def handleTouchMove (s : TState) (x y : Int) : TState :=
  let deltaX := |x - s.touchStartX|
  let deltaY := |y - s.touchStartY|
  if (10 < deltaX ∨ 10 < deltaY) ∧ s.timerNonNull then
    { s with pendingFire := none, timerNonNull := false }
  else
    s

/-- `handleTouchEnd` (mobileTouch.ts lines 159-197): clear the timer variable,
then evaluate swipe (threshold 50 px, dominant axis) and, only if no swipe
fired, double-tap (Date.now based 300 ms window). -/
def handleTouchEnd (h : Handlers) (s : TState) (x y t : Int) :
    TState × List Gesture :=
  let s1 := { s with pendingFire := none, timerNonNull := false }
  let deltaX := x - s1.touchStartX
  let deltaY := y - s1.touchStartY
  if h.onSwipe ∧ (50 < |deltaX| ∨ 50 < |deltaY|) then
    (s1, [Gesture.swipe
      (if |deltaY| < |deltaX| then
        (if 0 < deltaX then Dir.right else Dir.left)
      else
        (if 0 < deltaY then Dir.down else Dir.up))])
  else if h.onDoubleTap then
    (if t - s1.lastTapTime < 300 then
      ({ s1 with lastTapTime := 0 }, [Gesture.doubleTap])
    else
      ({ s1 with lastTapTime := t }, []))
  else
    (s1, [])

/-- Raw touch-contact events, each stamped with the time at which the handler
runs (`Date.now()` for the end handler). -/
inductive Ev
  | touchstart (x y t : Int)
  | touchmove (x y t : Int)
  | touchend (x y t : Int)
  deriving Repr, DecidableEq

/-- Timestamp of an event. -/
def Ev.time : Ev → Int
  | Ev.touchstart _ _ t => t
  | Ev.touchmove _ _ t => t
  | Ev.touchend _ _ t => t

/-- Deliver the armed long-press timeout if its deadline has been reached by
time `t`.  The callback fires `onLongPress` with the CURRENT start coordinates
and leaves the `longPressTimer` variable non-null. -/
def fireDue (s : TState) (t : Int) : TState × List Gesture :=
  match s.pendingFire with
  | some f =>
    if f ≤ t then
      ({ s with pendingFire := none },
       [Gesture.longPress s.touchStartX s.touchStartY])
    else
      (s, [])
  | none => (s, [])

/-- Process one event at its timestamp: first deliver a due timeout, then run
the matching touch handler. -/
def stepEv (h : Handlers) (s : TState) (e : Ev) : TState × List Gesture :=
  let fd := fireDue s e.time
  match e with
  | Ev.touchstart x y t => (handleTouchStart h fd.1 x y t, fd.2)
  | Ev.touchmove x y _ => (handleTouchMove fd.1 x y, fd.2)
  | Ev.touchend x y t =>
    let r := handleTouchEnd h fd.1 x y t
    (r.1, fd.2 ++ r.2)

/-- Run a list of events, collecting all emitted gestures in order. -/
def runEvents (h : Handlers) : TState → List Ev → TState × List Gesture
  | s, [] => (s, [])
  | s, e :: rest =>
    let r1 := stepEv h s e
    let r2 := runEvents h r1.1 rest
    (r2.1, r1.2 ++ r2.2)

/-- A contact-move event from a coordinate/time triple. -/
def mkMove (p : Int × Int × Int) : Ev :=
  Ev.touchmove p.1 p.2.1 p.2.2

/-- Is the gesture a long-press? -/
def isLP : Gesture → Bool
  | Gesture.longPress _ _ => true
  | _ => false

/-- Number of long-press gestures in an output trace. -/
def lpCount (l : List Gesture) : Nat :=
  (l.filter isLP).length

/-- Is the gesture one of the two contact-end outcomes (swipe or double-tap)? -/
def isEndGesture : Gesture → Bool
  | Gesture.swipe _ => true
  | Gesture.doubleTap => true
  | Gesture.longPress _ _ => false

/-- Number of swipe/double-tap gestures in an output trace. -/
def endGestureCount (l : List Gesture) : Nat :=
  (l.filter isEndGesture).length

end MobileTouch

/-! ## Supporting lemmas (shared, not claim theorems) -/

namespace MobileBridge

/-- The dispatch loop produces one record per registered handler, in order,
whatever the individual invocation results are. -/
theorem dispatchLoop_map_fst (hs : List Handler) :
    (dispatchLoop hs).map Prod.fst = hs.map Handler.id := by
  induction hs with
  | nil => rfl
  | cons h rest ih => simp [dispatchLoop, ih]

end MobileBridge

/-! ## Claim theorems: the bridge -/

/-- Claim C3 (code bug). In a headless context (no `window`, no `navigator`)
the spec requires `isMobileApp`/`getPlatform` to return `false`/`web` without
raising; the code instead throws a `ReferenceError`: `isMobileApp` passes its
one guarded check and then dereferences `window.location.search`, and
`getPlatform` dereferences `navigator.userAgent` unconditionally. -/
theorem c3_headless_raises :
    MobileBridge.isMobileApp ⟨none, none⟩
      = Except.error "ReferenceError: window is not defined"
    ∧ MobileBridge.getPlatform ⟨none, none⟩
      = Except.error "ReferenceError: navigator is not defined" :=
  ⟨rfl, rfl⟩

/-- Claim C4: with `isMobileShell` true, `postMessage` picks the transport by
fixed priority, re-read from the window at each call: the uni-app bridge (a)
wins when present, else the distinct parent frame (b), else the React Native
WebView channel (c); only (c) receives the JSON-serialized form, (a) and (b)
receive the structured message. -/
theorem c4_transport_priority (w : JsWindow) (m : MobileBridge.BridgeMessage) :
    (w.uniHasPostMessage = true →
      MobileBridge.postMessage true w m = [MobileBridge.Sent.uniApp m])
    ∧ (w.uniHasPostMessage = false → w.parentIsDistinct = true →
      MobileBridge.postMessage true w m = [MobileBridge.Sent.parentFrame m])
    ∧ (w.uniHasPostMessage = false → w.parentIsDistinct = false →
        w.reactNativeWebView = true →
      MobileBridge.postMessage true w m
        = [MobileBridge.Sent.reactNative (MobileBridge.jsonStringify m)]) := by
  refine ⟨?_, ?_, ?_⟩ <;> intros <;> simp [MobileBridge.postMessage, *]

/-- Witness for C4 at concrete inputs: all three capability layouts. -/
theorem c4_transport_priority_witness :
    MobileBridge.postMessage true ⟨false, none, true, true, true⟩
      ⟨MobileBridge.BridgeMessageType.LOGOUT, none⟩
      = [MobileBridge.Sent.uniApp ⟨MobileBridge.BridgeMessageType.LOGOUT, none⟩]
    ∧ MobileBridge.postMessage true ⟨false, none, false, true, true⟩
      ⟨MobileBridge.BridgeMessageType.LOGOUT, none⟩
      = [MobileBridge.Sent.parentFrame
          ⟨MobileBridge.BridgeMessageType.LOGOUT, none⟩]
    ∧ MobileBridge.postMessage true ⟨false, none, false, false, true⟩
      ⟨MobileBridge.BridgeMessageType.LOGOUT, none⟩
      = [MobileBridge.Sent.reactNative "\x7b\"type\":\"LOGOUT\"\x7d"] :=
  ⟨(c4_transport_priority ⟨false, none, true, true, true⟩
      ⟨MobileBridge.BridgeMessageType.LOGOUT, none⟩).1 rfl,
   (c4_transport_priority ⟨false, none, false, true, true⟩
      ⟨MobileBridge.BridgeMessageType.LOGOUT, none⟩).2.1 rfl rfl,
   (c4_transport_priority ⟨false, none, false, false, true⟩
      ⟨MobileBridge.BridgeMessageType.LOGOUT, none⟩).2.2 rfl rfl rfl⟩

/-- Claim C5: when `isMobileShell` is false, `postMessage` performs no
transport invocation at all, for every message of every kind — the message is
skipped, not queued. -/
theorem c5_not_mobile_skips (w : JsWindow) (m : MobileBridge.BridgeMessage) :
    MobileBridge.postMessage false w m = [] := by
  simp [MobileBridge.postMessage]

/-- Counterexample to claim C2 as stated: the inbound guard only tests
truthiness of `message.type`, so the unknown non-empty type `"FOO"` — not a
member of the `NativeMessageType` enumeration — is dispatched to the
registered handler rather than discarded. -/
theorem c2_counterexample :
    MobileBridge.handleNativeMessage [⟨0, false⟩]
        (MobileBridge.WirePayload.obj (some "FOO"))
      = [(0, MobileBridge.HResult.ok)]
    ∧ (MobileBridge.handleNativeMessage [⟨0, false⟩]
        (MobileBridge.WirePayload.obj (some "FOO"))).length ≠ 0 := by
  decide

/-- Amended claim C2: inbound dispatch discards a message (zero handler
invocations) exactly when the payload is nullish or its `type` field is
absent or the empty string; every payload with a non-empty `type` string —
enumeration member or not — is dispatched to all registered handlers. -/
theorem c2_amended_guard (hs : List MobileBridge.Handler) (t : String)
    (ht : t ≠ "") :
    (MobileBridge.handleNativeMessage hs
        (MobileBridge.WirePayload.obj (some t))).map Prod.fst
      = hs.map MobileBridge.Handler.id
    ∧ MobileBridge.handleNativeMessage hs MobileBridge.WirePayload.jsNull = []
    ∧ MobileBridge.handleNativeMessage hs (MobileBridge.WirePayload.obj none)
      = []
    ∧ MobileBridge.handleNativeMessage hs
        (MobileBridge.WirePayload.obj (some "")) = [] := by
  refine ⟨?_, rfl, rfl, ?_⟩
  · simp [MobileBridge.handleNativeMessage, MobileBridge.payloadAccepted, ht,
      MobileBridge.dispatchLoop_map_fst]
  · simp [MobileBridge.handleNativeMessage, MobileBridge.payloadAccepted]

/-- Witness for the amended C2 at concrete inputs. -/
theorem c2_amended_guard_witness :
    (MobileBridge.handleNativeMessage [⟨1, true⟩, ⟨2, false⟩]
        (MobileBridge.WirePayload.obj (some "FOO"))).map Prod.fst = [1, 2]
    ∧ MobileBridge.handleNativeMessage [⟨1, true⟩, ⟨2, false⟩]
        MobileBridge.WirePayload.jsNull = []
    ∧ MobileBridge.handleNativeMessage [⟨1, true⟩, ⟨2, false⟩]
        (MobileBridge.WirePayload.obj none) = []
    ∧ MobileBridge.handleNativeMessage [⟨1, true⟩, ⟨2, false⟩]
        (MobileBridge.WirePayload.obj (some "")) = [] :=
  c2_amended_guard [⟨1, true⟩, ⟨2, false⟩] "FOO" (by decide)

/-- Claim C6: for a valid inbound message, every registered handler is invoked
exactly once, in registration order, even when other handlers raise (the
`try`/`catch` isolates each failure); a handler removed through its
unsubscribe capability is not invoked for a later message. -/
theorem c6_dispatch_isolation (hs : List MobileBridge.Handler)
    (p : MobileBridge.WirePayload)
    (hacc : MobileBridge.payloadAccepted p = true) :
    (MobileBridge.handleNativeMessage hs p).map Prod.fst
      = hs.map MobileBridge.Handler.id
    ∧ (∀ h ∈ hs, (hs.map MobileBridge.Handler.id).Nodup →
        ((MobileBridge.handleNativeMessage hs p).map Prod.fst).count h.id = 1)
    ∧ (∀ i : Nat,
        ((MobileBridge.handleNativeMessage
            (MobileBridge.unsubscribe hs i) p).map Prod.fst).count i = 0) := by
  have hmain : (MobileBridge.handleNativeMessage hs p).map Prod.fst
      = hs.map MobileBridge.Handler.id := by
    simp [MobileBridge.handleNativeMessage, hacc,
      MobileBridge.dispatchLoop_map_fst]
  refine ⟨hmain, ?_, ?_⟩
  · intro h hmem hnd
    rw [hmain]
    exact List.count_eq_one_of_mem hnd (List.mem_map_of_mem _ hmem)
  · intro i
    have hsub : (MobileBridge.handleNativeMessage
        (MobileBridge.unsubscribe hs i) p).map Prod.fst
        = (MobileBridge.unsubscribe hs i).map MobileBridge.Handler.id := by
      simp [MobileBridge.handleNativeMessage, hacc,
        MobileBridge.dispatchLoop_map_fst]
    rw [hsub, List.count_eq_zero]
    intro hmem
    rcases List.mem_map.mp hmem with ⟨x, hx, hxi⟩
    rcases List.mem_filter.mp hx with ⟨_, hxcond⟩
    simp only [Bool.not_eq_true', beq_eq_false_iff_ne, ne_eq] at hxcond
    exact hxcond hxi

/-- Witness for C6: H1 (id 1) raises, H2 (id 2) is still invoked exactly once;
after unsubscribing id 1 it is never invoked. -/
theorem c6_dispatch_isolation_witness :
    (MobileBridge.handleNativeMessage [⟨1, true⟩, ⟨2, false⟩]
        (MobileBridge.WirePayload.obj (some "TOKEN"))).map Prod.fst = [1, 2]
    ∧ ((MobileBridge.handleNativeMessage [⟨1, true⟩, ⟨2, false⟩]
        (MobileBridge.WirePayload.obj (some "TOKEN"))).map Prod.fst).count 2 = 1
    ∧ ((MobileBridge.handleNativeMessage
        (MobileBridge.unsubscribe [⟨1, true⟩, ⟨2, false⟩] 1)
        (MobileBridge.WirePayload.obj (some "TOKEN"))).map Prod.fst).count 1
      = 0 :=
  ⟨(c6_dispatch_isolation [⟨1, true⟩, ⟨2, false⟩]
      (MobileBridge.WirePayload.obj (some "TOKEN")) (by decide)).1,
   (c6_dispatch_isolation [⟨1, true⟩, ⟨2, false⟩]
      (MobileBridge.WirePayload.obj (some "TOKEN")) (by decide)).2.1
      ⟨2, false⟩ (by decide) (by decide),
   (c6_dispatch_isolation [⟨1, true⟩, ⟨2, false⟩]
      (MobileBridge.WirePayload.obj (some "TOKEN")) (by decide)).2.2 1⟩

/-! ## Supporting lemmas: the gesture recognizer -/

namespace MobileTouch

theorem runEvents_cons (h : Handlers) (s : TState) (e : Ev) (es : List Ev) :
    runEvents h s (e :: es)
      = ((runEvents h (stepEv h s e).1 es).1,
         (stepEv h s e).2 ++ (runEvents h (stepEv h s e).1 es).2) := rfl

theorem runEvents_append (h : Handlers) (l1 : List Ev) :
    ∀ (s : TState) (l2 : List Ev),
      runEvents h s (l1 ++ l2)
        = ((runEvents h (runEvents h s l1).1 l2).1,
           (runEvents h s l1).2 ++ (runEvents h (runEvents h s l1).1 l2).2) := by
  induction l1 with
  | nil => intro s l2; simp [runEvents]
  | cons e rest ih =>
    intro s l2
    simp [runEvents_cons, List.cons_append, ih, List.append_assoc]

theorem lpCount_append (l1 l2 : List Gesture) :
    lpCount (l1 ++ l2) = lpCount l1 + lpCount l2 := by
  simp [lpCount, List.filter_append]

theorem endGestureCount_append (l1 l2 : List Gesture) :
    endGestureCount (l1 ++ l2) = endGestureCount l1 + endGestureCount l2 := by
  simp [endGestureCount, List.filter_append]

/-- The timeout delivery emits only long-press gestures. -/
theorem endGestureCount_fireDue (s : TState) (t : Int) :
    endGestureCount (fireDue s t).2 = 0 := by
  unfold fireDue
  rcases s.pendingFire with _ | f
  · rfl
  · by_cases hf : f ≤ t <;> simp [hf, endGestureCount, isEndGesture]

/-- The contact-end evaluation emits at most one swipe/double-tap. -/
theorem endGestureCount_handleTouchEnd (h : Handlers) (s : TState)
    (x y t : Int) :
    endGestureCount (handleTouchEnd h s x y t).2 ≤ 1 := by
  rw [handleTouchEnd]
  split
  · simp [endGestureCount, isEndGesture]
  · split
    · split <;> simp [endGestureCount, isEndGesture]
    · simp [endGestureCount]

/-- A contact-move step emits no swipe/double-tap. -/
theorem endGestureCount_step_move (h : Handlers) (s : TState) (x y t : Int) :
    endGestureCount (stepEv h s (Ev.touchmove x y t)).2 = 0 :=
  endGestureCount_fireDue s t

/-- A run consisting only of contact-move events emits no swipe/double-tap. -/
theorem endGestureCount_run_moves (h : Handlers) (ms : List (Int × Int × Int)) :
    ∀ s : TState, endGestureCount (runEvents h s (ms.map mkMove)).2 = 0 := by
  induction ms with
  | nil => intro s; rfl
  | cons p rest ih =>
    intro s
    rw [List.map_cons, runEvents_cons, endGestureCount_append]
    rw [show mkMove p = Ev.touchmove p.1 p.2.1 p.2.2 from rfl]
    rw [endGestureCount_step_move]
    simpa using ih _

/-- Contact-end handling never emits a long-press. -/
theorem lpCount_handleTouchEnd (h : Handlers) (s : TState) (x y t : Int) :
    lpCount (handleTouchEnd h s x y t).2 = 0 := by
  rw [handleTouchEnd]
  split
  · simp [lpCount, isLP]
  · split
    · split <;> simp [lpCount, isLP]
    · simp [lpCount]

/-- With no pending timeout, the delivery step is a silent no-op. -/
theorem fireDue_none (s : TState) (t : Int) (hpf : s.pendingFire = none) :
    fireDue s t = (s, []) := by
  unfold fireDue
  rw [hpf]

end MobileTouch

namespace MobileTouch

theorem mkMove_eq (p : Int × Int × Int) :
    mkMove p = Ev.touchmove p.1 p.2.1 p.2.2 := rfl

theorem lpCount_runEvents_cons (h : Handlers) (s : TState) (e : Ev)
    (es : List Ev) :
    lpCount (runEvents h s (e :: es)).2
      = lpCount (stepEv h s e).2 + lpCount (runEvents h (stepEv h s e).1 es).2 := by
  rw [runEvents_cons]
  exact lpCount_append _ _

theorem lpCount_runEvents_append (h : Handlers) (s : TState) (l1 l2 : List Ev) :
    lpCount (runEvents h s (l1 ++ l2)).2
      = lpCount (runEvents h s l1).2
        + lpCount (runEvents h (runEvents h s l1).1 l2).2 := by
  rw [runEvents_append]
  exact lpCount_append _ _

theorem endGestureCount_runEvents_cons (h : Handlers) (s : TState) (e : Ev)
    (es : List Ev) :
    endGestureCount (runEvents h s (e :: es)).2
      = endGestureCount (stepEv h s e).2
        + endGestureCount (runEvents h (stepEv h s e).1 es).2 := by
  rw [runEvents_cons]
  exact endGestureCount_append _ _

theorem endGestureCount_runEvents_append (h : Handlers) (s : TState)
    (l1 l2 : List Ev) :
    endGestureCount (runEvents h s (l1 ++ l2)).2
      = endGestureCount (runEvents h s l1).2
        + endGestureCount (runEvents h (runEvents h s l1).1 l2).2 := by
  rw [runEvents_append]
  exact endGestureCount_append _ _

theorem runEvents_cons_fst (h : Handlers) (s : TState) (e : Ev) (es : List Ev) :
    (runEvents h s (e :: es)).1 = (runEvents h (stepEv h s e).1 es).1 := by
  rw [runEvents_cons]

theorem runEvents_append_fst (h : Handlers) (s : TState) (l1 l2 : List Ev) :
    (runEvents h s (l1 ++ l2)).1
      = (runEvents h (runEvents h s l1).1 l2).1 := by
  rw [runEvents_append]

/-- The contact-end step emits at most one swipe/double-tap gesture. -/
theorem endGestureCount_step_end (h : Handlers) (s : TState) (x y t : Int) :
    endGestureCount (stepEv h s (Ev.touchend x y t)).2 ≤ 1 := by
  have hsplit : (stepEv h s (Ev.touchend x y t)).2
      = (fireDue s t).2 ++ (handleTouchEnd h (fireDue s t).1 x y t).2 := rfl
  rw [hsplit, endGestureCount_append, endGestureCount_fireDue]
  simpa using endGestureCount_handleTouchEnd h (fireDue s t).1 x y t

theorem endGestureCount_run_single_end (h : Handlers) (s : TState)
    (x y t : Int) :
    endGestureCount (runEvents h s [Ev.touchend x y t]).2 ≤ 1 := by
  rw [endGestureCount_runEvents_cons]
  have hz : endGestureCount (runEvents h (stepEv h s (Ev.touchend x y t)).1 []).2
      = 0 := rfl
  rw [hz]
  simpa using endGestureCount_step_end h s x y t

/-- Invariant along a single sequence while the long-press timer may still be
armed: start coordinates are the recorded ones, and the pending timeout (when
still present) is the one armed at contact-start, with the `longPressTimer`
variable non-null. -/
def ArmInv (s : TState) (f sx sy : Int) : Prop :=
  s.touchStartX = sx ∧ s.touchStartY = sy ∧
    (s.pendingFire = none ∨ (s.pendingFire = some f ∧ s.timerNonNull = true))

/-- Processing contact-start from a state with no pending timeout: nothing is
emitted and the invariant is established for the 500 ms deadline. -/
theorem stepStart_from_clean (h : Handlers) (s : TState) (sx sy t0 : Int)
    (hpf : s.pendingFire = none) :
    (stepEv h s (Ev.touchstart sx sy t0)).2 = []
    ∧ ArmInv (stepEv h s (Ev.touchstart sx sy t0)).1 (t0 + 500) sx sy := by
  have hstep : stepEv h s (Ev.touchstart sx sy t0)
      = (handleTouchStart h s sx sy t0, []) := by
    simp [stepEv, Ev.time, fireDue_none s t0 hpf]
  rw [hstep]
  refine ⟨rfl, ?_⟩
  rw [handleTouchStart]
  split
  · exact ⟨rfl, rfl, Or.inr ⟨rfl, rfl⟩⟩
  · exact ⟨rfl, rfl, Or.inl hpf⟩

/-- A contact-move processed before the armed deadline: emits nothing, keeps
the invariant, and — when the displacement exceeds 10 px in either axis —
leaves no pending timeout (the timer is disarmed). -/
theorem stepMove_armed (h : Handlers) (f sx sy mx my tm : Int) (s : TState)
    (hinv : ArmInv s f sx sy) (htm : tm < f) :
    ArmInv (stepEv h s (Ev.touchmove mx my tm)).1 f sx sy
    ∧ lpCount (stepEv h s (Ev.touchmove mx my tm)).2 = 0
    ∧ ((10 < |mx - sx| ∨ 10 < |my - sy|) →
        (stepEv h s (Ev.touchmove mx my tm)).1.pendingFire = none) := by
  obtain ⟨hx, hy, hpf⟩ := hinv
  have hfd : fireDue s tm = (s, []) := by
    rcases hpf with hpf | ⟨hpf, _⟩
    · exact fireDue_none s tm hpf
    · unfold fireDue
      rw [hpf]
      simp [not_le.mpr htm]
  have hstep : stepEv h s (Ev.touchmove mx my tm)
      = (handleTouchMove s mx my, []) := by
    simp [stepEv, Ev.time, hfd]
  rw [hstep]
  refine ⟨?_, rfl, ?_⟩
  · rw [handleTouchMove]
    split
    · exact ⟨hx, hy, Or.inl rfl⟩
    · exact ⟨hx, hy, hpf⟩
  · intro hd
    rw [handleTouchMove]
    split
    · rfl
    · next hcond =>
      rcases hpf with hpf | ⟨hpf, htnn⟩
      · exact hpf
      · exact absurd ⟨by rw [hx, hy]; exact hd, htnn⟩ hcond

/-- A run of contact-moves all timestamped before the armed deadline keeps the
invariant and emits nothing. -/
theorem runMoves_armed (h : Handlers) (f sx sy : Int)
    (ms : List (Int × Int × Int)) :
    ∀ s : TState, ArmInv s f sx sy → (∀ p ∈ ms, p.2.2 < f) →
      ArmInv (runEvents h s (ms.map mkMove)).1 f sx sy
      ∧ lpCount (runEvents h s (ms.map mkMove)).2 = 0 := by
  induction ms with
  | nil => intro s hinv _; exact ⟨hinv, rfl⟩
  | cons p rest ih =>
    intro s hinv hlt
    have hstep := stepMove_armed h f sx sy p.1 p.2.1 p.2.2 s hinv
      (hlt p (List.mem_cons_self p rest))
    have hrest := ih (stepEv h s (Ev.touchmove p.1 p.2.1 p.2.2)).1 hstep.1
      (fun q hq => hlt q (List.mem_cons_of_mem p hq))
    rw [List.map_cons, mkMove_eq, runEvents_cons]
    constructor
    · exact hrest.1
    · rw [lpCount_append, hstep.2.1, hrest.2]

/-- Field behaviour of the contact-move handler: start coordinates and the
last-tap timestamp are untouched; the pending timeout is preserved or
cleared. -/
theorem handleTouchMove_fields (s : TState) (x y : Int) :
    (handleTouchMove s x y).touchStartX = s.touchStartX
    ∧ (handleTouchMove s x y).touchStartY = s.touchStartY
    ∧ ((handleTouchMove s x y).pendingFire = s.pendingFire
       ∨ (handleTouchMove s x y).pendingFire = none) := by
  rw [handleTouchMove]
  split
  · exact ⟨rfl, rfl, Or.inr rfl⟩
  · exact ⟨rfl, rfl, Or.inl rfl⟩

/-- Field behaviour of the contact-end handler: start coordinates are
untouched and the pending timeout is always cleared. -/
theorem handleTouchEnd_fields (h : Handlers) (s : TState) (x y t : Int) :
    (handleTouchEnd h s x y t).1.touchStartX = s.touchStartX
    ∧ (handleTouchEnd h s x y t).1.touchStartY = s.touchStartY
    ∧ (handleTouchEnd h s x y t).1.pendingFire = none := by
  rw [handleTouchEnd]
  split
  · exact ⟨rfl, rfl, rfl⟩
  · split
    · split
      · exact ⟨rfl, rfl, rfl⟩
      · exact ⟨rfl, rfl, rfl⟩
    · exact ⟨rfl, rfl, rfl⟩

/-- A contact-move from a state with no pending timeout emits nothing and
preserves the start coordinates and the absence of a pending timeout. -/
theorem stepMove_disarmed (h : Handlers) (s : TState) (mx my tm : Int)
    (hpf : s.pendingFire = none) :
    (stepEv h s (Ev.touchmove mx my tm)).1.pendingFire = none
    ∧ (stepEv h s (Ev.touchmove mx my tm)).1.touchStartX = s.touchStartX
    ∧ (stepEv h s (Ev.touchmove mx my tm)).1.touchStartY = s.touchStartY
    ∧ (stepEv h s (Ev.touchmove mx my tm)).2 = [] := by
  have hstep : stepEv h s (Ev.touchmove mx my tm)
      = (handleTouchMove s mx my, []) := by
    simp [stepEv, Ev.time, fireDue_none s tm hpf]
  rw [hstep]
  obtain ⟨h1, h2, h3⟩ := handleTouchMove_fields s mx my
  refine ⟨?_, h1, h2, rfl⟩
  rcases h3 with h3 | h3
  · rw [h3, hpf]
  · exact h3

/-- A run of contact-moves from a disarmed state emits nothing and preserves
the start coordinates and the absence of a pending timeout. -/
theorem runMoves_disarmed (h : Handlers) (ms : List (Int × Int × Int)) :
    ∀ s : TState, s.pendingFire = none →
      (runEvents h s (ms.map mkMove)).1.pendingFire = none
      ∧ (runEvents h s (ms.map mkMove)).1.touchStartX = s.touchStartX
      ∧ (runEvents h s (ms.map mkMove)).1.touchStartY = s.touchStartY
      ∧ lpCount (runEvents h s (ms.map mkMove)).2 = 0 := by
  induction ms with
  | nil => intro s hpf; exact ⟨hpf, rfl, rfl, rfl⟩
  | cons p rest ih =>
    intro s hpf
    have hstep := stepMove_disarmed h s p.1 p.2.1 p.2.2 hpf
    have hrest := ih (stepEv h s (Ev.touchmove p.1 p.2.1 p.2.2)).1 hstep.1
    rw [List.map_cons, mkMove_eq, runEvents_cons]
    refine ⟨hrest.1, ?_, ?_, ?_⟩
    · rw [hrest.2.1, hstep.2.1]
    · rw [hrest.2.2.1, hstep.2.2.1]
    · rw [lpCount_append, hrest.2.2.2]
      have hz : lpCount (stepEv h s (Ev.touchmove p.1 p.2.1 p.2.2)).2 = 0 := by
        rw [hstep.2.2.2]
        rfl
      rw [hz]

/-- Contact-end from a state with no pending timeout emits no long-press. -/
theorem stepEnd_disarmed (h : Handlers) (s : TState) (x y t : Int)
    (hpf : s.pendingFire = none) :
    lpCount (stepEv h s (Ev.touchend x y t)).2 = 0 := by
  have hsplit : (stepEv h s (Ev.touchend x y t)).2
      = (fireDue s t).2 ++ (handleTouchEnd h (fireDue s t).1 x y t).2 := rfl
  rw [hsplit, fireDue_none s t hpf]
  simpa using lpCount_handleTouchEnd h s x y t

end MobileTouch

/-! ## Claim theorems: the gesture recognizer -/

open MobileTouch

/-- Counterexample to claim C1 as stated: a contact sequence held still for
600 ms and ending 80 px to the right fires BOTH the long-press (at 500 ms)
and, at contact-end, the swipe.  The code keeps no long-press-fired flag: the
fired timer leaves `longPressTimer` non-null, `clearTimeout` on it is a no-op,
and contact-end evaluation proceeds to swipe/double-tap regardless. -/
theorem c1_counterexample :
    (runEvents ⟨true, false, true⟩ initState
        [Ev.touchstart 0 0 0, Ev.touchend 80 0 600]).2
      = [Gesture.longPress 0 0, Gesture.swipe Dir.right]
    ∧ lpCount (runEvents ⟨true, false, true⟩ initState
        [Ev.touchstart 0 0 0, Ev.touchend 80 0 600]).2 = 1
    ∧ endGestureCount (runEvents ⟨true, false, true⟩ initState
        [Ev.touchstart 0 0 0, Ev.touchend 80 0 600]).2 = 1 := by
  decide

/-- Amended claim C1: per contact sequence at most one of the two contact-end
outcomes (swipe, double-tap) fires — they are mutually exclusive with each
other — but a fired long-press is NOT terminal: contact-end evaluation still
runs, so a long-press plus one of swipe/double-tap can fire for the same
sequence. -/
theorem c1_amended (h : Handlers) (s : TState) (sx sy t0 : Int)
    (moves : List (Int × Int × Int)) (ex ey te : Int) :
    endGestureCount (runEvents h s
      (Ev.touchstart sx sy t0 ::
        (moves.map mkMove ++ [Ev.touchend ex ey te]))).2 ≤ 1 := by
  rw [endGestureCount_runEvents_cons, endGestureCount_runEvents_append]
  have h1 : endGestureCount (stepEv h s (Ev.touchstart sx sy t0)).2 = 0 :=
    endGestureCount_fireDue s t0
  rw [h1, endGestureCount_run_moves]
  simpa using endGestureCount_run_single_end h _ ex ey te

/-- Claim C7: at a contact-end that does not fire a swipe, with a double-tap
handler configured, the code fires double-tap and resets the last-tap
timestamp to zero exactly when the end time is within 300 ms of the stored
last-tap timestamp, and otherwise fires nothing and stores the end time; in
particular, after a fired double-tap (timestamp reset to zero) a third rapid
tap at any realistic clock value (`Date.now() ≥ 300`) does not fire another
double-tap. -/
theorem c7_double_tap (h : Handlers) (s : TState) (x y t : Int)
    (hdt : h.onDoubleTap = true)
    (hns : h.onSwipe = false
      ∨ (|x - s.touchStartX| ≤ 50 ∧ |y - s.touchStartY| ≤ 50)) :
    (t - s.lastTapTime < 300 →
      (handleTouchEnd h s x y t).2 = [Gesture.doubleTap]
      ∧ (handleTouchEnd h s x y t).1.lastTapTime = 0)
    ∧ (300 ≤ t - s.lastTapTime →
      (handleTouchEnd h s x y t).2 = []
      ∧ (handleTouchEnd h s x y t).1.lastTapTime = t)
    ∧ (s.lastTapTime = 0 → 300 ≤ t →
      (handleTouchEnd h s x y t).2 = []) := by
  have hnosw : ¬(h.onSwipe = true
      ∧ (50 < |x - s.touchStartX| ∨ 50 < |y - s.touchStartY|)) := by
    rcases hns with hns | ⟨hx50, hy50⟩
    · rintro ⟨hsw, _⟩
      rw [hns] at hsw
      cases hsw
    · rintro ⟨_, hd⟩
      rcases hd with hd | hd
      · omega
      · omega
  refine ⟨?_, ?_, ?_⟩ <;> rw [handleTouchEnd] <;> dsimp only <;>
    rw [if_neg hnosw, if_pos hdt]
  · intro hlt
    rw [if_pos hlt]
    exact ⟨rfl, rfl⟩
  · intro hge
    rw [if_neg (not_lt.mpr hge)]
    exact ⟨rfl, rfl⟩
  · intro h0 h300
    rw [if_neg (by omega : ¬(t - s.lastTapTime < 300))]

/-- Witness for C7: a tap end 250 ms after the stored last-tap timestamp fires
double-tap and zeroes the timestamp. -/
theorem c7_double_tap_witness :
    (handleTouchEnd ⟨false, true, false⟩
        { touchStartX := 0, touchStartY := 0, lastTapTime := 1000,
          pendingFire := none, timerNonNull := false } 5 0 1250).2
      = [Gesture.doubleTap]
    ∧ (handleTouchEnd ⟨false, true, false⟩
        { touchStartX := 0, touchStartY := 0, lastTapTime := 1000,
          pendingFire := none, timerNonNull := false } 5 0 1250).1.lastTapTime
      = 0 :=
  (c7_double_tap ⟨false, true, false⟩
    { touchStartX := 0, touchStartY := 0, lastTapTime := 1000,
      pendingFire := none, timerNonNull := false } 5 0 1250 rfl
    (Or.inl rfl)).1 (by decide)

/-- Claim C8: a contact-end whose displacement exceeds 50 px in some axis,
with a swipe handler configured, fires the swipe exactly once with the
direction of the dominant axis (strictly horizontal-dominant → right/left by
sign of Δx, otherwise down/up by sign of Δy) and does not evaluate double-tap
(the last-tap timestamp is untouched). -/
theorem c8_swipe (h : Handlers) (s : TState) (x y t : Int)
    (hsw : h.onSwipe = true)
    (hth : 50 < |x - s.touchStartX| ∨ 50 < |y - s.touchStartY|) :
    (handleTouchEnd h s x y t).2
      = [Gesture.swipe
          (if |y - s.touchStartY| < |x - s.touchStartX| then
            (if 0 < x - s.touchStartX then Dir.right else Dir.left)
          else
            (if 0 < y - s.touchStartY then Dir.down else Dir.up))]
    ∧ (handleTouchEnd h s x y t).1.lastTapTime = s.lastTapTime := by
  rw [handleTouchEnd]
  dsimp only
  rw [if_pos ⟨hsw, hth⟩]
  exact ⟨rfl, rfl⟩

/-- Witness for C8: start (0,0), end (80,0) → swipe right, timestamp kept. -/
theorem c8_swipe_witness :
    (handleTouchEnd ⟨false, false, true⟩ initState 80 0 200).2
      = [Gesture.swipe Dir.right]
    ∧ (handleTouchEnd ⟨false, false, true⟩ initState 80 0 200).1.lastTapTime
      = 0 :=
  c8_swipe ⟨false, false, true⟩ initState 80 0 200 rfl (by decide)

/-- Claim C10: at a swipe with `|Δx| = |Δy|` (both over threshold) the
classification is vertical (down for positive Δy, else up), because the
horizontal branch requires strictly `|Δx| > |Δy|`; conversely any fired
left/right swipe implies `|Δy| < |Δx|`. -/
theorem c10_tie_vertical (h : Handlers) (s : TState) (x y t : Int)
    (hsw : h.onSwipe = true)
    (heq : |x - s.touchStartX| = |y - s.touchStartY|)
    (hth : 50 < |y - s.touchStartY|) :
    (handleTouchEnd h s x y t).2
      = [Gesture.swipe (if 0 < y - s.touchStartY then Dir.down else Dir.up)]
    ∧ (∀ (h2 : Handlers) (s2 : TState) (x2 y2 t2 : Int) (d : Dir),
        (handleTouchEnd h2 s2 x2 y2 t2).2 = [Gesture.swipe d] →
        (d = Dir.left ∨ d = Dir.right) →
        |y2 - s2.touchStartY| < |x2 - s2.touchStartX|) := by
  constructor
  · rw [handleTouchEnd]
    dsimp only
    rw [if_pos ⟨hsw, Or.inr hth⟩]
    have hnlt : ¬(|y - s.touchStartY| < |x - s.touchStartX|) := by
      rw [heq]
      exact lt_irrefl _
    rw [if_neg hnlt]
  · intro h2 s2 x2 y2 t2 d hout hd
    rw [handleTouchEnd] at hout
    dsimp only at hout
    by_cases hc : (h2.onSwipe = true)
        ∧ (50 < |x2 - s2.touchStartX| ∨ 50 < |y2 - s2.touchStartY|)
    · rw [if_pos hc] at hout
      have hdir : (if |y2 - s2.touchStartY| < |x2 - s2.touchStartX| then
          (if 0 < x2 - s2.touchStartX then Dir.right else Dir.left)
        else
          (if 0 < y2 - s2.touchStartY then Dir.down else Dir.up)) = d := by
        simpa using hout
      by_cases hlt : |y2 - s2.touchStartY| < |x2 - s2.touchStartX|
      · exact hlt
      · rw [if_neg hlt] at hdir
        rcases hd with hd | hd <;> subst hd <;> split at hdir
        · exact Dir.noConfusion hdir
        · exact Dir.noConfusion hdir
        · exact Dir.noConfusion hdir
        · exact Dir.noConfusion hdir
    · rw [if_neg hc] at hout
      split at hout
      · split at hout
        · simp at hout
        · simp at hout
      · simp at hout

/-- Witness for C10: end displacement (60,60) classifies as swipe down; a
fired swipe right at displacement (80,1) has `|Δy| < |Δx|`. -/
theorem c10_tie_vertical_witness :
    (handleTouchEnd ⟨false, false, true⟩ initState 60 60 0).2
      = [Gesture.swipe Dir.down]
    ∧ |(1 : Int) - initState.touchStartY|
      < |(80 : Int) - initState.touchStartX| :=
  ⟨(c10_tie_vertical ⟨false, false, true⟩ initState 60 60 0 rfl (by decide)
      (by decide)).1,
   (c10_tie_vertical ⟨false, false, true⟩ initState 60 60 0 rfl (by decide)
      (by decide)).2
    ⟨false, false, true⟩ initState 80 1 0 Dir.right (by decide)
    (Or.inr rfl)⟩

/-- Claim C9: a contact-move that exceeds 10 px displacement in either axis
before the 500 ms deadline disarms the long-press timer: no long-press fires
anywhere in the sequence, even when contact-end comes after the deadline; and
the recorded start coordinates are not reset by any move (they are still the
contact-start coordinates when contact-end computes the swipe delta). -/
theorem c9_move_disarms (h : Handlers) (s0 : TState) (sx sy t0 : Int)
    (pre : List (Int × Int × Int)) (mx my tm : Int)
    (post : List (Int × Int × Int)) (ex ey te : Int)
    (hs0 : s0.pendingFire = none)
    (hdisp : 10 < |mx - sx| ∨ 10 < |my - sy|)
    (hpre : ∀ p ∈ pre, p.2.2 < t0 + 500)
    (htm : tm < t0 + 500) :
    lpCount (runEvents h s0
      (Ev.touchstart sx sy t0 ::
        (pre.map mkMove ++
          Ev.touchmove mx my tm ::
            (post.map mkMove ++ [Ev.touchend ex ey te])))).2 = 0
    ∧ (runEvents h s0
        (Ev.touchstart sx sy t0 ::
          (pre.map mkMove ++ Ev.touchmove mx my tm ::
            post.map mkMove))).1.touchStartX = sx
    ∧ (runEvents h s0
        (Ev.touchstart sx sy t0 ::
          (pre.map mkMove ++ Ev.touchmove mx my tm ::
            post.map mkMove))).1.touchStartY = sy := by
  have hstart := stepStart_from_clean h s0 sx sy t0 hs0
  have hpreRun := runMoves_armed h (t0 + 500) sx sy pre
    (stepEv h s0 (Ev.touchstart sx sy t0)).1 hstart.2 hpre
  have hm := stepMove_armed h (t0 + 500) sx sy mx my tm
    (runEvents h (stepEv h s0 (Ev.touchstart sx sy t0)).1 (pre.map mkMove)).1
    hpreRun.1 htm
  have hmpf := hm.2.2 hdisp
  have hpostRun := runMoves_disarmed h post
    (stepEv h
      (runEvents h (stepEv h s0 (Ev.touchstart sx sy t0)).1 (pre.map mkMove)).1
      (Ev.touchmove mx my tm)).1 hmpf
  refine ⟨?_, ?_, ?_⟩
  · rw [lpCount_runEvents_cons, lpCount_runEvents_append,
      lpCount_runEvents_cons, lpCount_runEvents_append,
      lpCount_runEvents_cons]
    have hz1 : lpCount (stepEv h s0 (Ev.touchstart sx sy t0)).2 = 0 := by
      rw [hstart.1]
      rfl
    rw [hz1, hpreRun.2, hm.2.1, hpostRun.2.2.2,
      stepEnd_disarmed h _ ex ey te hpostRun.1]
    rfl
  · rw [runEvents_cons_fst, runEvents_append_fst, runEvents_cons_fst]
    rw [hpostRun.2.1, hm.1.1]
  · rw [runEvents_cons_fst, runEvents_append_fst, runEvents_cons_fst]
    rw [hpostRun.2.2.1, hm.1.2.1]

/-- Witness for C9: start at (0,0,t=0), an 11-px-safe pre-move at 100 ms, a
20 px move at 200 ms, contact-end at 700 ms at (80,0): no long-press fires
and the recorded start coordinates are still (0,0). -/
theorem c9_move_disarms_witness :
    lpCount (runEvents ⟨true, true, true⟩ initState
      [Ev.touchstart 0 0 0, Ev.touchmove 5 0 100, Ev.touchmove 20 0 200,
        Ev.touchend 80 0 700]).2 = 0
    ∧ (runEvents ⟨true, true, true⟩ initState
        [Ev.touchstart 0 0 0, Ev.touchmove 5 0 100,
          Ev.touchmove 20 0 200]).1.touchStartX = 0
    ∧ (runEvents ⟨true, true, true⟩ initState
        [Ev.touchstart 0 0 0, Ev.touchmove 5 0 100,
          Ev.touchmove 20 0 200]).1.touchStartY = 0 :=
  c9_move_disarms ⟨true, true, true⟩ initState 0 0 0 [(5, 0, 100)] 20 0 200
    [] 80 0 700 rfl (by decide) (by decide) (by decide)
